import Mathlib

/-!
Verification development for the `shell-rust` command-line shell
(`src/main.rs`).  The character scanner (`handle_args`), the token cleaner
(`remove_unwanted`), the tokenizer (`IterArgs`), the classifier
(`Cmd::from`), and the executor arms are embedded shallowly as computable
Lean functions over `List Char` / `String`, with the environment
(filesystem, `PATH`, `HOME`, working directory) passed explicitly.
Positions are character indices, exactly as produced by
`input.chars().enumerate()` in the source.  A Rust `panic!`/`unwrap`
failure is modelled as `Option.none`.
-/

/-- Inner loop of `handle_args` for a double-quoted region
(src/main.rs lines 271-291).  Takes the remaining enumerated characters,
the current last-seen index `i`, and the accumulated `remove` list; returns
the extended remove list, the updated `i`, and the characters left after
the region.  A backslash is pushed to `remove` (and the next character
consumed) exactly when the peeked character is `\` or `"`. -/
def dqLoop : List (Nat × Char) → Nat → List Nat → List Nat × Nat × List (Nat × Char)
  | [], i, rm => (rm, i, [])
  | (ii, '"') :: rest, _, rm => (rm ++ [ii], ii, rest)
  | (ii, '\\') :: rest, _, rm =>
    match rest with
    | (jj, w) :: rest2 =>
      if w = '\\' ∨ w = '"' then dqLoop rest2 ii (rm ++ [ii])
      else dqLoop ((jj, w) :: rest2) ii rm
    | [] => (rm, ii, [])
  | (ii, _) :: rest, _, rm => dqLoop rest ii rm

/-- Inner loop of `handle_args` for a single-quoted region
(src/main.rs lines 292-301): every character up to the closing quote is
kept verbatim; both quotes are pushed to `remove`
(the opening one by the caller). -/
def sqLoop : List (Nat × Char) → Nat → List Nat → List Nat × Nat × List (Nat × Char)
  | [], i, rm => (rm, i, [])
  | (ii, v) :: rest, _, rm =>
    if v = '\'' then (rm ++ [ii], ii, rest) else sqLoop rest ii rm

/-- Main `while let` loop of `handle_args` (src/main.rs lines 258-304).
`fuel` bounds the number of outer iterations; every iteration consumes at
least one enumerated character, so `length + 1` fuel makes the model exact.
The second result is the `end` offset written by the Rust function: on a
whitespace terminator it is `index + 1`; when the iterator is exhausted it
is `i + 1` where `i` is the last index seen — after an escape that consumed
the (possibly absent) next character, `i` has been incremented once more. -/
def haLoop : Nat → List (Nat × Char) → Nat → List Nat → List Nat × Nat
  | 0, _, i, rm => (rm, i + 1)
  | _ + 1, [], i, rm => (rm, i + 1)
  | _ + 1, (idx, ' ') :: _, _, rm => (rm ++ [idx], idx + 1)
  | _ + 1, (idx, '\t') :: _, _, rm => (rm ++ [idx], idx + 1)
  | _ + 1, (idx, '\r') :: _, _, rm => (rm ++ [idx], idx + 1)
  | fuel + 1, (idx, '\\') :: rest, _, rm => haLoop fuel rest.tail (idx + 1) (rm ++ [idx])
  | fuel + 1, (idx, '"') :: rest, _, rm =>
    let r := dqLoop rest idx (rm ++ [idx])
    haLoop fuel r.2.2 r.2.1 r.1
  | fuel + 1, (idx, '\'') :: rest, _, rm =>
    let r := sqLoop rest idx (rm ++ [idx])
    haLoop fuel r.2.2 r.2.1 r.1
  | fuel + 1, (idx, _) :: rest, _, rm => haLoop fuel rest idx rm

/-- Function `handle_args` (src/main.rs lines 253-306): scans one token of the
remaining input and returns the `remove` positions together with the `end`
offset.  On empty input the early `peek().is_none()` return leaves the
`end` variable of the caller at `0`. -/
def handle_args (cs : List Char) : List Nat × Nat :=
  if cs.isEmpty then ([], 0) else haLoop (cs.length + 1) cs.enum 0 []

/-- The leading-run computation of `remove_unwanted`
(src/main.rs lines 220-226): counts how many initial entries of `remove`
are exactly `0, 1, 2, …`. -/
def leadRun : List Nat → Nat → Nat
  | [], s => s
  | i :: rest, s => if i = s then leadRun rest (s + 1) else s

/-- The owned-string construction of `remove_unwanted`
(src/main.rs lines 240-250): copies every character of the trimmed slice
whose absolute index is not the next pending entry of the remove list;
the pending entry advances only when it matches. -/
def skipRemove : List Char → Nat → List Nat → List Char
  | [], _, _ => []
  | c :: cs, idx, [] => c :: skipRemove cs (idx + 1) []
  | c :: cs, idx, r :: rs =>
    if r = idx then skipRemove cs (idx + 1) rs
    else c :: skipRemove cs (idx + 1) (r :: rs)

/-- Function `remove_unwanted` (src/main.rs lines 216-252).  The Rust trailing-trim
loop `for i in remove.len() - 1..0` iterates over an empty range, so the
`end` variable always remains `value.len() - 1`; the model reflects that. -/
def remove_unwanted (value : List Char) (remove : List Nat) : List Char :=
  if remove.isEmpty ∨ value.isEmpty then value
  else
    let start := leadRun remove 0
    let endv := value.length - 1
    if start + (value.length - 1 - endv) ≥ value.length then []
    else if start + (value.length - 1 - endv) ≥ remove.length then
      (value.drop start).take (endv + 1 - start)
    else
      skipRemove ((value.drop start).take (endv + 1 - start)) start (remove.drop start)

/-- The loop of `IterArgs::next` collected to completion
(src/main.rs lines 181-204): while the cursor is inside the line, scan one
token, clean the slice `[0, end)`, advance the cursor by `end`, skip empty
results, and yield non-empty ones.  `fuel` bounds the iterations; the
cursor advances by at least one per iteration, so `length + 1` fuel is
exact.  Rust slices `&input[0..end]` by bytes and panics when `end`
exceeds the slice length or falls inside a multi-byte character; the
char-level `List.take` clamps instead (that divergence is exactly the
scanner overrun exhibited for claim C3). -/
def iterLoop : Nat → List Char → Nat → List (List Char)
  | 0, _, _ => []
  | fuel + 1, whole, start =>
    if start ≥ whole.length then []
    else
      let input := whole.drop start
      let p := handle_args input
      let got := remove_unwanted (input.take p.2) p.1
      if got.isEmpty ∧ p.2 ≥ whole.length then []
      else if got.isEmpty then iterLoop fuel whole (start + p.2)
      else got :: iterLoop fuel whole (start + p.2)

/-- All tokens produced by `IterArgs::new(s)` in order. -/
def iterArgs (s : String) : List String :=
  (iterLoop (s.toList.length + 1) s.toList 0).map (fun l => String.mk l)

/-- Rust `str::trim_start` as used by `Cmd::from` (ASCII whitespace suffices for
the inputs of this development). -/
def trimStart (s : List Char) : List Char := s.dropWhile Char.isWhitespace

/-- All-digit parse used by `i32::from_str`. -/
def parseDigits : List Char → Option Nat
  | [] => none
  | cs =>
    if cs.all Char.isDigit then
      some (cs.foldl (fun a c => a * 10 + (c.toNat - 48)) 0)
    else none

/-- Rust `str::parse::<i32>()`: optional sign, at least one digit, value within
the `i32` range; anything else is `Err`. -/
def parseI32 (s : String) : Option Int :=
  let p : Int × List Char :=
    match s.toList with
    | '+' :: rest => (1, rest)
    | '-' :: rest => (-1, rest)
    | cs => (1, cs)
  match parseDigits p.2 with
  | none => none
  | some n =>
    let v : Int := p.1 * n
    if -2147483648 ≤ v ∧ v ≤ 2147483647 then some v else none

/-- The `Cmd` enum (src/main.rs lines 30-38). -/
inductive Cmd where
  | Exit (code : Int)
  | Echo (args : List String)
  | Type (arg : String)
  | Pwd
  | Cd (path : String)
  | Cat (args : List String)
  | Other (name : String) (args : List String)
  deriving DecidableEq, Repr

/-- Conversion `Cmd::from(&str)` (src/main.rs lines 139-157).  The Rust code calls
`cmd_args.next().unwrap()` on the first token, which panics when the
tokenizer yields nothing; that panic is modelled as `none`. -/
def cmdFrom (value : String) : Option Cmd :=
  let v := String.mk (trimStart value.toList)
  match iterArgs v with
  | [] => none
  | cmd :: rest =>
    some <|
      if cmd = "exit" then Cmd.Exit ((parseI32 (rest.headD "")).getD 0)
      else if cmd = "echo" then Cmd.Echo rest
      else if cmd = "type" then Cmd.Type (rest.headD "")
      else if cmd = "pwd" then Cmd.Pwd
      else if cmd = "cd" then Cmd.Cd (rest.headD "~")
      else if cmd = "cat" then Cmd.Cat rest
      else Cmd.Other cmd rest

/-- Method `Cmd::is_builtin` (src/main.rs lines 62-64):
`!matches!(self, Self::Other(_, _) | Self::Cat(_))`. -/
def Cmd.is_builtin : Cmd → Bool
  | .Other _ _ => false
  | .Cat _ => false
  | _ => true

/-- Impl `Display for Cmd` (src/main.rs lines 40-59); the `Other` arm consults
the PATH resolver `fp`. -/
def displayCmd (fp : String → Option String) : Cmd → String
  | .Exit _ => "exit is a shell builtin"
  | .Echo _ => "echo is a shell builtin"
  | .Type _ => "type is a shell builtin"
  | .Pwd => "pwd is a shell builtin"
  | .Cd _ => "cd is a shell builtin"
  | .Cat _ => "cat is a shell builtin"
  | .Other cmd _ =>
    match fp cmd with
    | some path => cmd ++ " is " ++ path
    | none => cmd ++ ": not found"

/-- The `Type` arm of `Cmd::execute` (src/main.rs lines 81-96): classify
the argument, print the `Display` line when the result is a builtin,
otherwise resolve via PATH.  `none` marks the panic inherited from
`Cmd::from` on an empty token list. -/
def typeOutput (fp : String → Option String) (arg : String) : Option String :=
  match cmdFrom arg with
  | none => none
  | some c =>
    if c.is_builtin then some (displayCmd fp c)
    else
      match fp arg with
      | some v => some (arg ++ " is " ++ v)
      | none => some (arg ++ ": not found")

/-- Rust `str::split` at the colon separator, accumulator form. -/
def splitColonGo : List Char → List Char → List String
  | [], acc => [String.mk acc.reverse]
  | c :: rest, acc =>
    if c = ':' then String.mk acc.reverse :: splitColonGo rest []
    else splitColonGo rest (c :: acc)

/-- Split of the whole `PATH` string at colons, as in `env.split` in the source. -/
def splitColon (s : String) : List String := splitColonGo s.toList []

/-- Directory loop of `find_path` (src/main.rs lines 161-170).  `readDir`
is the injected filesystem: `none` models a failing `fs::read_dir`.  The
Rust body is `for entry in fs::read_dir(path).ok()?`, so a failing
directory makes the whole function return `None` immediately; a found
entry returns `dir.path()`, i.e. the directory joined with the name. -/
def findPathGo (readDir : String → Option (List String)) (value : String) :
    List String → Option String
  | [] => none
  | path :: rest =>
    match readDir path with
    | none => none
    | some entries =>
      match entries.find? (fun name => name = value) with
      | some _ => some (path ++ "/" ++ value)
      | none => findPathGo readDir value rest

/-- Function `find_path` (src/main.rs lines 159-172) with the `PATH` string and the
filesystem passed explicitly. -/
def find_path (readDir : String → Option (List String)) (env : String)
    (value : String) : Option String :=
  findPathGo readDir value (splitColon env)

/-- Observable effect of the `Cd` arm of `Cmd::execute`. -/
inductive CdEffect where
  | changed (dir : String)
  | wrote (msg : String)
  | ioError
  deriving DecidableEq, Repr

/-- The `Cd` arm of `Cmd::execute` (src/main.rs lines 101-108).  `home` is
the `HOME` environment value (`none` ⇒ `env::var("HOME").unwrap()`
panics, modelled as `none`); `chdirOk p` tells whether
`env::set_current_dir(p)` succeeds.  For `~`, a failing chdir propagates
the `io::Error` through `?`; for any other path a failing chdir only
writes the `cd:` message and the command completes normally. -/
def executeCd (home : Option String) (chdirOk : String → Bool) (path : String) :
    Option CdEffect :=
  if path = "~" then
    match home with
    | none => none
    | some h => if chdirOk h then some (.changed h) else some .ioError
  else if chdirOk path then some (.changed path)
  else some (.wrote ("cd: " ++ path ++ ": No such file or directory"))

/-- Observable effect of the `Other` arm of `Cmd::execute`. -/
inductive OtherEffect where
  | spawn (path : String) (argv : List String)
  | notFound (msg : String)
  deriving DecidableEq, Repr

/-- The `Other` arm of `Cmd::execute` (src/main.rs lines 127-133):
`process::Command::new(path).arg(args.join(" ")).status()` — the resolved
executable receives a single argument holding all tokens joined by
spaces. -/
def executeOther (fp : String → Option String) (cmd : String)
    (args : List String) : OtherEffect :=
  match fp cmd with
  | some path => .spawn path [String.intercalate " " args]
  | none => .notFound (cmd ++ ": command not found")

/-- Append or truncate mode of a redirection target. -/
inductive RedirMode where
  | truncate
  | append
  deriving DecidableEq, Repr

/-- Modelled from the spec: the Redirection Extractor (spec section 4.4) is
not present in the `src/` snapshot of the repository; this `RedirectionSpec`
holds, per output stream, the optional target path with its mode. -/
structure RedirectionSpec where
  stdout : Option (String × RedirMode)
  stderr : Option (String × RedirMode)
  deriving DecidableEq, Repr

/-- Recognized stdout redirection operators. -/
def isStdoutOp (t : String) : Bool :=
  t = ">" || t = "1>" || t = ">>" || t = "1>>"

/-- Recognized stderr redirection operators. -/
def isStderrOp (t : String) : Bool :=
  t = "2>" || t = "2>>"

/-- Mode carried by a recognized redirection operator. -/
def opMode (t : String) : RedirMode :=
  if t = ">>" || t = "1>>" || t = "2>>" then .append else .truncate

/-- Modelled from the spec: single left-to-right pass of the Redirection
Extractor (spec section 4.4), absent from the `src/` snapshot.  On a
recognized operator the next token is consumed as the target and neither is
copied to argv; an operator that is the last token is consumed with no
target set; the first operator per stream wins and later operators for an
already-set stream are consumed and discarded; all other tokens are copied
to argv in order. -/
def extractGo : List String → Option (String × RedirMode) →
    Option (String × RedirMode) → RedirectionSpec × List String
  | [], so, se => (⟨so, se⟩, [])
  | t :: rest, so, se =>
    if isStdoutOp t then
      match rest with
      | [] => (⟨so, se⟩, [])
      | p :: rest2 =>
        extractGo rest2 (if so.isSome then so else some (p, opMode t)) se
    else if isStderrOp t then
      match rest with
      | [] => (⟨so, se⟩, [])
      | p :: rest2 =>
        extractGo rest2 so (if se.isSome then se else some (p, opMode t))
    else
      let r := extractGo rest so se
      (r.1, t :: r.2)

/-- Modelled from the spec: `extract(tokens)` of the Redirection Extractor,
starting with both streams unset. -/
def extract (tokens : List String) : RedirectionSpec × List String :=
  extractGo tokens none none

/-- Helper for claim C1: no token surviving in the argv produced by
`extractGo` is a recognized redirection operator. -/
theorem extractGo_no_op :
    ∀ (n : Nat) (l : List String), l.length ≤ n →
      ∀ (so se : Option (String × RedirMode)) (t : String),
        t ∈ (extractGo l so se).2 →
        isStdoutOp t = false ∧ isStderrOp t = false := by
  intro n
  induction n with
  | zero =>
    intro l hl so se t ht
    rw [List.length_eq_zero.mp (Nat.le_zero.mp hl)] at ht
    simp [extractGo] at ht
  | succ n ih =>
    intro l hl so se t ht
    match l with
    | [] => simp [extractGo] at ht
    | u :: rest =>
      rw [extractGo.eq_def] at ht
      dsimp only at ht
      by_cases h1 : isStdoutOp u = true
      · rw [if_pos h1] at ht
        match rest with
        | [] => simp at ht
        | p :: rest2 =>
          refine ih rest2 ?_ _ _ t ht
          simp only [List.length_cons] at hl
          omega
      · rw [if_neg h1] at ht
        by_cases h2 : isStderrOp u = true
        · rw [if_pos h2] at ht
          match rest with
          | [] => simp at ht
          | p :: rest2 =>
            refine ih rest2 ?_ _ _ t ht
            simp only [List.length_cons] at hl
            omega
        · rw [if_neg h2] at ht
          simp only [List.mem_cons] at ht
          rcases ht with rfl | ht
          · exact ⟨by simpa using h1, by simpa using h2⟩
          · refine ih rest ?_ _ _ t ht
            simp only [List.length_cons] at hl
            omega

/-- Helper for claim C10: every token list produced by the `IterArgs` loop
is non-empty, because an empty cleaned result makes the loop continue or
stop instead of yielding. -/
theorem iterLoop_ne_nil :
    ∀ (fuel : Nat) (whole : List Char) (start : Nat) (t : List Char),
      t ∈ iterLoop fuel whole start → t ≠ [] := by
  intro fuel
  induction fuel with
  | zero => intro whole start t ht; simp [iterLoop] at ht
  | succ n ih =>
    intro whole start t ht
    rw [iterLoop] at ht
    split at ht
    · simp at ht
    · dsimp only at ht
      split at ht
      · simp at ht
      · split at ht
        · exact ih whole _ t ht
        · rcases List.mem_cons.mp ht with rfl | h
          · simp_all
          · exact ih whole _ t h

/-- C1: the Redirection Extractor (modelled from the spec; absent from the
src/ snapshot) removes every recognized redirection operator, together with
the token that follows it, from the remaining argv — so no operator token
survives in argv — and the first operator seen for a stream wins: on
[echo, hi, >, out.txt, >>, out2.txt] the stdout target is out.txt in
truncate mode, out2.txt is ignored, and argv is [echo, hi]. -/
theorem claim_C1 :
    (∀ (ts : List String) (t : String), t ∈ (extract ts).2 →
      isStdoutOp t = false ∧ isStderrOp t = false) ∧
    extract ["echo", "hi", ">", "out.txt", ">>", "out2.txt"] =
      (⟨some ("out.txt", RedirMode.truncate), none⟩, ["echo", "hi"]) := by
  constructor
  · intro ts t ht
    exact extractGo_no_op ts.length ts le_rfl none none t ht
  · decide

/-- Witness for C1 at a concrete token list. -/
theorem claim_C1_witness :
    isStdoutOp "echo" = false ∧ isStderrOp "echo" = false :=
  claim_C1.1 ["echo", "hi", ">", "out.txt", ">>", "out2.txt"] "echo" (by decide)

/-- C2 (code bug): `Cmd::from` calls `.unwrap()` on the first token, so
classifying an empty or all-whitespace line panics (modelled as `none`)
instead of returning a defined EmptyCommand failure; the panic is reachable
through `type` with no argument, whose execute arm classifies the empty
string. -/
theorem claim_C2 :
    cmdFrom "" = none ∧ cmdFrom "   " = none ∧
    cmdFrom "type" = some (Cmd.Type "") ∧
    ∀ fp : String → Option String, typeOutput fp "" = none := by
  refine ⟨by decide, by decide, by decide, fun fp => rfl⟩

/-- C3 (code bug): for the one-character input consisting of a lone
backslash, the scanner consumes past the end of the input — the escape arm
increments the cursor even when no next character exists — so `token_end`
is 2 on a remaining input of length 1, and the Rust slice
`&input[0..token_end]` in `IterArgs::next` is out of bounds (a panic). -/
theorem claim_C3 :
    (handle_args "\\".toList).2 = 2 ∧ "\\".toList.length = 1 := by decide

/-- C4 (amended): when the name resolves, the executor spawns the resolved
path with a single argument holding all tokens joined by spaces
(`.arg(args.join(" "))`), not one argument per token. -/
theorem claim_C4 :
    ∀ (fp : String → Option String) (cmd : String) (args : List String)
      (path : String), fp cmd = some path →
      executeOther fp cmd args =
        OtherEffect.spawn path [String.intercalate " " args] := by
  intro fp cmd args path h
  simp [executeOther, h]

/-- Counterexample for C4: with two tokens the child receives the single
argument "a b", not the two arguments "a" and "b". -/
theorem claim_C4_counterexample :
    executeOther (fun _ => some "/bin/x") "my-cmd" ["a", "b"] =
      OtherEffect.spawn "/bin/x" ["a b"] ∧
    executeOther (fun _ => some "/bin/x") "my-cmd" ["a", "b"] ≠
      OtherEffect.spawn "/bin/x" ["a", "b"] := by decide

/-- Witness for C4 at a concrete resolver and argument list. -/
theorem claim_C4_witness :
    executeOther (fun _ => some "/bin/x") "c" ["a", "b"] =
      OtherEffect.spawn "/bin/x" ["a b"] :=
  (claim_C4 (fun _ => some "/bin/x") "c" ["a", "b"] "/bin/x" rfl).trans (by decide)

/-- C5 (amended): the quoted suffix concatenates with the adjacent
unquoted run, so the scenario line of claim C5 classifies to
Echo(["hello", "worldhii"]). -/
theorem claim_C5 :
    cmdFrom "echo hello   world\x27hii\x27" =
      some (Cmd.Echo ["hello", "worldhii"]) := by decide

/-- Counterexample for C5: the classification is not
Echo(["hello", "world", "hii"]) as the claim states. -/
theorem claim_C5_counterexample :
    cmdFrom "echo hello   world\x27hii\x27" ≠
      some (Cmd.Echo ["hello", "world", "hii"]) := by decide

/-- C6 (amended): the builtin verbs reported by `type` are exactly
exit, echo, type, pwd and cd — `is_builtin` excludes `Cat` — and for each
of them `Type(name)` writes "name is a shell builtin" for every PATH
resolver. -/
theorem claim_C6 :
    ∀ (fp : String → Option String) (name : String),
      name ∈ (["exit", "echo", "type", "pwd", "cd"] : List String) →
      typeOutput fp name = some (name ++ " is a shell builtin") := by
  intro fp name h
  fin_cases h
  · show typeOutput fp "exit" = _
    unfold typeOutput
    rw [show cmdFrom "exit" = some (Cmd.Exit 0) from by decide]
    rfl
  · show typeOutput fp "echo" = _
    unfold typeOutput
    rw [show cmdFrom "echo" = some (Cmd.Echo []) from by decide]
    rfl
  · show typeOutput fp "type" = _
    unfold typeOutput
    rw [show cmdFrom "type" = some (Cmd.Type "") from by decide]
    rfl
  · show typeOutput fp "pwd" = _
    unfold typeOutput
    rw [show cmdFrom "pwd" = some Cmd.Pwd from by decide]
    rfl
  · show typeOutput fp "cd" = _
    unfold typeOutput
    rw [show cmdFrom "cd" = some (Cmd.Cd "~") from by decide]
    rfl

/-- Witness for C6 at the verb "exit" and a trivial resolver. -/
theorem claim_C6_witness :
    typeOutput (fun _ => none) "exit" = some ("exit" ++ " is a shell builtin") :=
  claim_C6 (fun _ => none) "exit" (by decide)

/-- Counterexample for C6: `cat` is in the builtin set named by the claim, but
`is_builtin` returns false for `Cat`, so `type cat` goes through the PATH
resolver instead of reporting a builtin. -/
theorem claim_C6_counterexample :
    Cmd.is_builtin (Cmd.Cat []) = false ∧
    typeOutput (fun _ => none) "cat" = some "cat: not found" ∧
    typeOutput (fun _ => none) "cat" ≠ some "cat is a shell builtin" := by decide

/-- C7 (amended): a failing `read_dir` aborts the whole PATH search — after
any readable match-free prefix, an unreadable directory makes `find_path`
return none, so a match in a later directory is never returned. -/
theorem claim_C7 :
    ∀ (rd : String → Option (List String)) (v : String) (l1 : List String)
      (d : String) (l2 : List String),
      (∀ p ∈ l1, ∃ es, rd p = some es ∧
        es.find? (fun name => name = v) = none) →
      rd d = none →
      findPathGo rd v (l1 ++ d :: l2) = none := by
  intro rd v l1 d l2
  induction l1 with
  | nil =>
    intro _ hd
    simp [findPathGo, hd]
  | cons p ps ih =>
    intro h hd
    obtain ⟨es, hes, hfind⟩ := h p (by simp)
    rw [List.cons_append]
    simp only [findPathGo, hes, hfind]
    exact ih (fun q hq => h q (by simp [hq])) hd

/-- Witness for C7: with directory "bad" unreadable and "good" holding an
entry named "x", the search over "bad" then "good" returns none. -/
theorem claim_C7_witness :
    findPathGo (fun d => if d = "good" then some ["x"] else none) "x"
      ["bad", "good"] = none :=
  claim_C7 (fun d => if d = "good" then some ["x"] else none) "x" [] "bad"
    ["good"] (by simp) (by decide)

/-- Counterexample for C7: the same filesystem finds "x" when the search
starts at "good", yet returns none once the unreadable "bad" precedes it in
PATH — the later match is not returned. -/
theorem claim_C7_counterexample :
    find_path (fun d => if d = "good" then some ["x"] else none) "good" "x" =
      some "good/x" ∧
    find_path (fun d => if d = "good" then some ["x"] else none) "bad:good" "x" =
      none := by decide

/-- C8: `cd ~` changes the working directory to the HOME value (when the
chdir succeeds), and `cd` to any other nonexistent path writes
"cd: path: No such file or directory" and completes without propagating
an error. -/
theorem claim_C8 :
    (∀ (h : String) (ok : String → Bool), ok h = true →
      executeCd (some h) ok "~" = some (CdEffect.changed h)) ∧
    (∀ (home : Option String) (ok : String → Bool) (p : String),
      p ≠ "~" → ok p = false →
      executeCd home ok p =
        some (CdEffect.wrote ("cd: " ++ p ++ ": No such file or directory"))) := by
  constructor
  · intro h ok hok
    simp [executeCd, hok]
  · intro home ok p hp hok
    simp [executeCd, hp, hok]

/-- Witness for C8 at a concrete HOME value and a concrete missing path. -/
theorem claim_C8_witness :
    executeCd (some "/home/u") (fun _ => true) "~" =
      some (CdEffect.changed "/home/u") ∧
    executeCd (some "/home/u") (fun _ => false) "/nope" =
      some (CdEffect.wrote "cd: /nope: No such file or directory") := by
  constructor
  · exact claim_C8.1 "/home/u" (fun _ => true) rfl
  · exact (claim_C8.2 (some "/home/u") (fun _ => false) "/nope" (by decide)
      rfl).trans (by decide)

/-- C9: inside a double-quoted region a backslash is dropped (and the next
character consumed) exactly when the next character is a backslash or a
double quote, and otherwise retained; on the four-character input
quote-backslash-quote-quote the drop positions are exactly {0, 1, 3} with
token_end 4, and the token text is a single double quote. -/
theorem claim_C9 :
    (∀ (ii jj : Nat) (w : Char) (rest : List (Nat × Char)) (i : Nat)
      (rm : List Nat),
      dqLoop ((ii, '\\') :: (jj, w) :: rest) i rm =
        if w = '\\' ∨ w = '"' then dqLoop rest ii (rm ++ [ii])
        else dqLoop ((jj, w) :: rest) ii rm) ∧
    handle_args "\"\\\"\"".toList = ([0, 1, 3], 4) ∧
    iterArgs "\"\\\"\"" = ["\""] := by
  refine ⟨fun ii jj w rest i rm => rfl, by decide, by decide⟩

/-- C10: no token yielded by the tokenizer is empty — an empty cleaned
result makes the iterator keep scanning or stop, never yield. -/
theorem claim_C10 :
    ∀ (s : String) (t : String), t ∈ iterArgs s → t ≠ "" := by
  intro s t ht
  rcases List.mem_map.mp ht with ⟨l, hl, rfl⟩
  have hne := iterLoop_ne_nil (s.toList.length + 1) s.toList 0 l hl
  intro hmk
  apply hne
  simpa using congrArg String.data hmk

/-- Witness for C10 at a concrete line and token. -/
theorem claim_C10_witness : ("hello" : String) ≠ "" :=
  claim_C10 "hello" "hello" (by decide)

example : handle_args "echo hi".toList = ([4], 5) := by decide
example : handle_args "".toList = ([], 0) := by decide
example : handle_args " ".toList = ([0], 1) := by decide
example : handle_args "     ".toList = ([0], 1) := by decide
example : handle_args "\"abc\"".toList = ([0, 4], 5) := by decide
example : handle_args "\x27ab   c\x27".toList = ([0, 7], 8) := by decide
example : handle_args "abc def ghi".toList = ([3], 4) := by decide
example : handle_args "\x27\"\x27".toList = ([0, 2], 3) := by decide
example : handle_args "\"\x27\"".toList = ([0, 2], 3) := by decide
example : handle_args "\"\\\"\"".toList = ([0, 1, 3], 4) := by decide
example : handle_args "abc\\ndef\\ efg\\txyz".toList = ([3, 8, 13], 18) := by decide
example : handle_args "\\\\\\\\\\\\\\\\".toList = ([0, 2, 4, 6], 8) := by decide
example : handle_args "hello\\ ".toList = ([5], 7) := by decide
example : handle_args "\\ hello".toList = ([0], 7) := by decide
example : handle_args "hello\\     ".toList = ([5, 7], 8) := by decide
example : handle_args "\"abc\"\"def\"".toList = ([0, 4, 5, 9], 10) := by decide
example : handle_args "\x27abc\x27\"def\"".toList = ([0, 4, 5, 9], 10) := by decide
example : handle_args "\"abc\" \x27def\x27".toList = ([0, 4, 5], 6) := by decide
example : remove_unwanted "abc".toList [1] = "ac".toList := by decide
example : remove_unwanted "abcdefgh".toList [0, 1, 3, 6, 7] = "cef".toList := by decide
example : remove_unwanted "abc".toList [10] = "abc".toList := by decide
example : remove_unwanted "abc".toList [2, 3, 4] = "ab".toList := by decide
example : remove_unwanted "abc".toList [1, 2, 3, 4] = "a".toList := by decide
example : iterArgs "hello" = ["hello"] := by decide
example : iterArgs "\"\"\"\"hello\"\"\"\"" = ["hello"] := by decide
example : iterArgs "hello\\ world" = ["hello world"] := by decide
example : iterArgs "   hello\\ world   " = ["hello world"] := by decide
example : iterArgs "   hello\\ world  foo\x27bar\x27foo " = ["hello world", "foobarfoo"] := by decide
example : iterArgs "hello world \x27hello   world\x27\\ " = ["hello", "world", "hello   world "] := by decide
example : iterArgs "\x27/tmp/foo/\"f 50\"\x27 \x27/tmp/foo/f67\x27" =
    ["/tmp/foo/\"f 50\"", "/tmp/foo/f67"] := by decide
example : iterArgs "echo hello   world\x27hii\x27" = ["echo", "hello", "worldhii"] := by decide
example : cmdFrom "echo hello world" = some (Cmd.Echo ["hello", "world"]) := by decide
example : cmdFrom "type ls" = some (Cmd.Type "ls") := by decide
example : cmdFrom "cd   tmp/" = some (Cmd.Cd "tmp/") := by decide
example : cmdFrom "exit 100" = some (Cmd.Exit 100) := by decide
